import Mathlib

/- Shallow embedding of the zi terminal editor (main.go, canonical snapshot),
   together with an embedding of the earlier draft snapshot (unnamed/part_001)
   where it differs.  Byte values are modelled as Nat, Go ints as Int
   (the guarded cursor arithmetic never approaches 64-bit overflow), the
   terminal window size fields (uint16, decremented once at startup) as Nat.
   Output writes are modelled as a list of String chunks, one chunk per
   write call in the source; the byte stream sent to the terminal is their
   concatenation. -/

namespace Zi

/-- Version constant `ziVersion` from main.go. -/
def ziVersion : String := "0.0.1"

/-- ANSI escape character, 27 in decimal. -/
def escapeChar : Char := Char.ofNat 27

/-- All ANSI escape sequences start with this char. -/
def escapeSeqBegin : Char := '['

/-- Color constant `reset`. -/
def reset : Nat := 0

/-- Color constant `faint`. -/
def faint : Nat := 2

/-- Color constant `inverted`. -/
def inverted : Nat := 7

/-- Color constant `bgBlue`. -/
def bgBlue : Nat := 44

/-- Editor modality of the canonical main.go snapshot: `editorMode` has
exactly the three constructors `normalMode`, `insertMode`, `commandMode`
(the iota-skipped zero value is unused and the type has no Visual mode). -/
inductive editorMode where
  | normalMode
  | insertMode
  | commandMode
deriving DecidableEq, Repr, Fintype

/-- The god-object `TermState` of main.go.  `oldTermios` is the startup
terminal attribute snapshot, kept abstract as a Nat token; `winRow`/`winCol`
are `winSize.Row`/`winSize.Col` after the one-time decrement in `main`.
The reader, writer and logger handles are replaced by explicit chunk lists
and event traces in the functions below. -/
structure TermState where
  oldTermios : Nat
  winRow : Nat
  winCol : Nat
  mode : editorMode
  welcomed : Bool
  cursorX : Int
  cursorY : Int
  bufferRows : List String
  rowOffset : Int
  lineNumWidth : Int
  openFilename : String
deriving DecidableEq, Repr

/-- ctrlPress returns the byte value of a key if it were pressed with CTRL
(bits 5-7 cleared, i.e. masked with 0x1f). -/
def ctrlPress (char : Nat) : Nat := char &&& 0x1f

/-- colorCode returns an escape code string starting a color sequence,
Go `fmt.Sprintf("%c%c%dm", escapeChar, escapeSeqBegin, c)`. -/
def colorCode (c : Nat) : String :=
  String.mk [escapeChar, escapeSeqBegin] ++ toString c ++ "m"

/-- Chunk written first by clearScreen: "Cursor Position" to top left. -/
def cpHomeChunk : String := String.mk [escapeChar, escapeSeqBegin] ++ "H"

/-- Chunk written second by clearScreen: "Erase in Display", all of it. -/
def eraseDisplayChunk : String := String.mk [escapeChar, escapeSeqBegin] ++ "2J"

/-- clearScreen writes exactly these two chunks to the writer. -/
def clearScreenChunks : List String := [cpHomeChunk, eraseDisplayChunk]

/-- Chunk hiding the cursor during updates, `ESC [ ?25l`. -/
def hideCursorChunk : String := String.mk [escapeChar, escapeSeqBegin] ++ "?25l"

/-- Chunk unhiding the cursor after redraw, `ESC [ ?25h`. -/
def showCursorChunk : String := String.mk [escapeChar, escapeSeqBegin] ++ "?25h"

/-- The cursor placement escape, Go `fmt.Fprintf(w, "%c%c%d;%dH", ...)`. -/
def cursorPosChunk (y x : Int) : String :=
  String.mk [escapeChar, escapeSeqBegin] ++ toString y ++ ";" ++ toString x ++ "H"

/-- Observable side effects of the dispatcher: buffered writes, a flush of
the buffered writer, restoration of the startup termios snapshot, and
process exit with a code. -/
inductive Event where
  | write (s : String)
  | flush
  | restoreTermios (t : Nat)
  | exitCode (n : Nat)
deriving DecidableEq, Repr

/-- True exactly on process-exit events. -/
def isExitEvent : Event → Bool
  | Event.exitCode _ => true
  | _ => false

/-- readKeyPress keeps reading from r until a byte is read, then returns it.
The input stream is modelled as the list of outcomes of successive ReadByte
attempts (`none` = error/timeout, `some b` = a byte was read); the Go loop
skips every failed attempt and returns the first byte read. -/
def readKeyPress : List (Option Nat) → Option Nat
  | [] => none
  | some b :: _ => some b
  | none :: rest => readKeyPress rest

/-- moveCursor adjusts the cursor position based on the command issued
(vim-style hjkl, byte values 104/106/107/108). -/
def moveCursor (ts : TermState) (b : Nat) : TermState :=
  if b = 104 then
    -- 'h': reserve 1 col for visual separation of line nums
    if ts.cursorX > ts.lineNumWidth + 1 then { ts with cursorX := ts.cursorX - 1 } else ts
  else if b = 106 then
    -- 'j'
    if ts.cursorY < (ts.bufferRows.length : Int) then { ts with cursorY := ts.cursorY + 1 } else ts
  else if b = 107 then
    -- 'k'
    if ts.cursorY > 0 then { ts with cursorY := ts.cursorY - 1 } else ts
  else if b = 108 then
    -- 'l'
    if ts.cursorX < (ts.winCol : Int) then { ts with cursorX := ts.cursorX + 1 } else ts
  else ts

/-- processNormalModePress: Ctrl-Q (113 &&& 0x1f = 17) clears the screen,
flushes, and exits via ts.exit(nil) (restore termios, exit code 0);
'i' (105) enters insert mode; hjkl move the cursor. -/
def processNormalModePress (ts : TermState) (b : Nat) : TermState × List Event :=
  if b = ctrlPress 113 then
    (ts, [Event.write cpHomeChunk, Event.write eraseDisplayChunk, Event.flush,
          Event.restoreTermios ts.oldTermios, Event.exitCode 0])
  else if b = 105 then
    ({ ts with mode := editorMode.insertMode }, [])
  else if b = 104 ∨ b = 106 ∨ b = 107 ∨ b = 108 then
    (moveCursor ts b, [])
  else
    (ts, [])

/-- processInsertModePress: escape (27) returns to normal mode. -/
def processInsertModePress (ts : TermState) (b : Nat) : TermState × List Event :=
  if b = 27 then ({ ts with mode := editorMode.normalMode }, []) else (ts, [])

/-- processCommandModePress: escape (27) returns to normal mode. -/
def processCommandModePress (ts : TermState) (b : Nat) : TermState × List Event :=
  if b = 27 then ({ ts with mode := editorMode.normalMode }, []) else (ts, [])

/-- processKeyPresses dispatches one already-read byte on the current mode. -/
def processKeyPresses (ts : TermState) (b : Nat) : TermState × List Event :=
  match ts.mode with
  | editorMode.normalMode => processNormalModePress ts b
  | editorMode.insertMode => processInsertModePress ts b
  | editorMode.commandMode => processCommandModePress ts b

/-- adjustScroll modifies the rowOffset to handle window size and location
within the bufferRows (two successive guarded assignments, as in main.go). -/
def adjustScroll (ts : TermState) : TermState :=
  let ts1 := if ts.cursorY < ts.rowOffset then { ts with rowOffset := ts.cursorY } else ts
  if ts1.cursorY ≥ ts1.rowOffset + (ts1.winRow : Int) then
    { ts1 with rowOffset := ts1.cursorY - (ts1.winRow : Int) }
  else ts1

/-- Go format verb `%*s` / `%*d`: right-justify in a minimum width, padding
with spaces on the left; a string longer than the width is not changed. -/
def padLeft (w : Nat) (s : String) : String :=
  String.mk (List.replicate (w - s.length) ' ') ++ s

/-- Go format verb `%-*s`: left-justify in a minimum width, padding with
spaces on the right; a string longer than the width is not changed. -/
def padRight (w : Nat) (s : String) : String :=
  s ++ String.mk (List.replicate (w - s.length) ' ')

/-- Go string slicing `s[:n]` (the buffer rows are treated at character
granularity; Go panics when n is negative or beyond the length, which the
drawing code rules out at its call sites). -/
def strTake (s : String) (n : Nat) : String := String.mk (s.data.take n)

/-- The welcome banner text, Go `fmt.Sprintf("%s -- version %v", ...)`. -/
def welcomeMsg : String := "zi -- version " ++ ziVersion

/-- writeWelcomeMsg marks the state welcomed and returns the single chunk
written: the message truncated to winCol+1 characters if it overflows,
otherwise right-justified at width (winCol + 1 + len(msg)) / 2. -/
def writeWelcomeMsg (ts : TermState) : TermState × String :=
  let msg := welcomeMsg
  if msg.length > ts.winCol + 1 then
    ({ ts with welcomed := true }, padLeft (strTake msg (ts.winCol + 1)).length (strTake msg (ts.winCol + 1)))
  else
    ({ ts with welcomed := true }, padLeft ((ts.winCol + 1 + msg.length) / 2) msg)

/-- The inverse-video color chosen by writeStatusBar for each mode (the Go
switch leaves the zero value 0 for command mode). -/
def statusColor (ts : TermState) : Nat :=
  match ts.mode with
  | editorMode.normalMode => inverted
  | editorMode.insertMode => bgBlue
  | editorMode.commandMode => 0

/-- The mode label chosen by writeStatusBar (empty for command mode). -/
def statusModeName (ts : TermState) : String :=
  match ts.mode with
  | editorMode.normalMode => "NORMAL"
  | editorMode.insertMode => "INSERT"
  | editorMode.commandMode => ""

/-- The status message, Go `fmt.Sprintf("%s -- %s", mode, ts.openFilename)`. -/
def statusMsg (ts : TermState) : String :=
  statusModeName ts ++ " -- " ++ ts.openFilename

/-- The visible (non-escape) text of the status bar: the status message
left-justified in winCol columns via the `%-*s` verb. -/
def statusVisible (ts : TermState) : String :=
  padRight ts.winCol (statusMsg ts)

/-- writeStatusBar writes one chunk,
`fmt.Fprintf(w, "%s%-*s%s", colorCode(c), Col, msg, colorCode(reset))`. -/
def writeStatusBar (ts : TermState) : String :=
  colorCode (statusColor ts) ++ statusVisible ts ++ colorCode reset

/-- The dim right-aligned line number chunk,
`fmt.Fprintf(w, "%s%*d%s ", colorCode(faint), width, fileRow+1, colorCode(reset))`. -/
def lineNumChunk (width : Nat) (n : Int) : String :=
  colorCode faint ++ padLeft width (toString n) ++ colorCode reset ++ " "

/-- One iteration of the drawRows loop body for screen line i: returns the
updated state, the chunks written for this line (always ending in CRLF),
and the list of screen line indices at which the welcome banner was written
during this iteration (empty or the singleton [i]). -/
def drawRowBody (ts : TermState) (i : Nat) : TermState × List String × List Nat :=
  let allowColChars : Int := (ts.winCol : Int) - ts.lineNumWidth
  let fileRow : Int := ts.rowOffset + (i : Int)
  if fileRow ≥ (ts.bufferRows.length : Int) then
    if ¬ts.welcomed ∧ i = ts.winRow / 3 then
      let r := writeWelcomeMsg ts
      (r.1, ["~", r.2, "\r\n"], [i])
    else
      (ts, ["~", "\r\n"], [])
  else
    let row := ts.bufferRows.getD fileRow.toNat ""
    let chars : Int := if (row.length : Int) > allowColChars then allowColChars else (row.length : Int)
    (ts, [lineNumChunk ts.lineNumWidth.toNat (fileRow + 1), strTake row chars.toNat, "\r\n"], [])

/-- The drawRows loop, iterating the body for i, i+1, ... over the given
number of remaining lines, threading the state and concatenating chunks and
banner positions. -/
def drawRowsLoop (ts : TermState) (i : Nat) : Nat → TermState × List String × List Nat
  | 0 => (ts, [], [])
  | n + 1 =>
    let r1 := drawRowBody ts i
    let r2 := drawRowsLoop r1.1 (i + 1) n
    (r2.1, r1.2.1 ++ r2.2.1, r1.2.2 ++ r2.2.2)

/-- drawRows: clear the screen, recompute lineNumWidth as the decimal digit
count of the buffer row count, run the loop over winRow screen lines, then
write the status bar. -/
def drawRows (ts : TermState) : TermState × List String × List Nat :=
  let ts0 := { ts with lineNumWidth := ((toString ts.bufferRows.length).length : Int) }
  let r := drawRowsLoop ts0 0 ts0.winRow
  (r.1, clearScreenChunks ++ r.2.1 ++ [writeStatusBar r.1], r.2.2)

/-- refreshScreen: adjust scrolling, hide the cursor, draw all rows, place
the cursor at column cursorX+1 and row cursorY-rowOffset (incremented when
cursorY < 2), then unhide the cursor.  The deferred flush happens after all
chunks are buffered, so the frame is the concatenation of the returned
chunks.  Returns (updated state, chunks, banner positions). -/
def refreshScreen (ts : TermState) : TermState × List String × List Nat :=
  let ts0 := adjustScroll ts
  let r := drawRows ts0
  let yPos : Int := r.1.cursorY - r.1.rowOffset
  let yPos : Int := if r.1.cursorY < 2 then yPos + 1 else yPos
  (r.1, [hideCursorChunk] ++ r.2.1 ++ [cursorPosChunk yPos (r.1.cursorX + 1), showCursorChunk], r.2.2)

/-- The byte sequence of one frame: the concatenation of its chunks. -/
def frameBytes (ts : TermState) : String := String.join (refreshScreen ts).2.1

/-- The penultimate chunk of a frame, which is where refreshScreen emits the
final cursor placement escape. -/
def frameCursorChunk (ts : TermState) : Option String :=
  ((refreshScreen ts).2.1.reverse.drop 1).head?

/-- Recognizer for a cursor placement escape `ESC [ ... ; ... H`: starts
with ESC [, ends with H, and contains a semicolon. -/
def isCursorPosEscape (s : String) : Bool :=
  s.data.head? == some escapeChar && (s.data.drop 1).head? == some escapeSeqBegin &&
  s.data.getLast? == some 'H' && s.data.contains ';'

/-- The TermState literal constructed in main: mode normal, cursorX 2, an
empty buffer, and Go zero values for the remaining fields. -/
def initialState (oldT winRow winCol : Nat) : TermState :=
  { oldTermios := oldT, winRow := winRow, winCol := winCol,
    mode := editorMode.normalMode, welcomed := false,
    cursorX := 2, cursorY := 0, bufferRows := [], rowOffset := 0,
    lineNumWidth := 0, openFilename := "" }

/-- openEditor: with fewer than two command line arguments the state is
unchanged; otherwise the filename is recorded, the file contents (modelled
as a lookup from filename to the scanned lines, `none` = open error) are
loaded, the welcome banner is suppressed, and lineNumWidth/cursorX are set
from the digit count of the row count.  `none` models the error return. -/
def openEditor (args : List String) (contents : String → Option (List String))
    (ts : TermState) : Option TermState :=
  if args.length < 2 then some ts
  else
    let filename := args.getD 1 ""
    let ts1 := { ts with openFilename := filename }
    match contents filename with
    | none => none
    | some lines =>
      some { ts1 with bufferRows := lines, welcomed := true,
                      lineNumWidth := ((toString lines.length).length : Int),
                      cursorX := ((toString lines.length).length : Int) + 1 }

/-- One iteration of the main loop: refreshScreen, then dispatch of the
next byte.  Returns the new state, the dispatch events, and the banner
positions of the rendered frame. -/
def sessionStep (ts : TermState) (b : Nat) : TermState × List Event × List Nat :=
  let r := refreshScreen ts
  let d := processKeyPresses r.1 b
  (d.1, d.2, r.2.2)

/-- Runs the main loop over a list of input bytes, accumulating the banner
positions of every rendered frame; the loop stops when the dispatcher
signals exit. -/
def runSession (ts : TermState) : List Nat → TermState × List Nat
  | [] => (ts, [])
  | b :: bs =>
    let s := sessionStep ts b
    if s.2.1.any isExitEvent then (s.1, s.2.2)
    else
      let rest := runSession s.1 bs
      (rest.1, s.2.2 ++ rest.2)

/-- Modelled from the spec, for comparison in claim C3: the claimed cursor
row formula, `cursorRow - offset + 1` in 1-indexed terminal coordinates,
biased by +1 when the resulting on-screen row would be 0 or 1 (offset taken
after the per-frame recompute). -/
def claimedCursorRowC3 (ts : TermState) : Int :=
  let t := adjustScroll ts
  let base := t.cursorY - t.rowOffset + 1
  if base = 0 ∨ base = 1 then base + 1 else base

/-- The cursor row actually emitted by refreshScreen (source lines 307-313):
cursorY - rowOffset, incremented when cursorY < 2. -/
def frameCursorRow (ts : TermState) : Int :=
  let t := adjustScroll ts
  if t.cursorY < 2 then t.cursorY - t.rowOffset + 1 else t.cursorY - t.rowOffset

end Zi

namespace Draft

/-- Editor modality of the earlier draft snapshot (unnamed/part_001):
EditorMode has the four constructors normalMode, insertMode, visualMode,
commandMode. -/
inductive EditorMode where
  | normalMode
  | insertMode
  | visualMode
  | commandMode
deriving DecidableEq, Repr, Fintype

/-- The draft TermState (unnamed/part_001): no buffer, no scrolling, no
welcome flag; winRow/winCol are the raw winSize fields. -/
structure TermState where
  oldTermios : Nat
  winRow : Nat
  winCol : Nat
  mode : EditorMode
  cursorX : Int
  cursorY : Int
deriving DecidableEq, Repr

/-- Outcome of one draft dispatch: a next state, the Goexit taken on
Ctrl-Q, or a runtime panic with its message. -/
inductive Outcome where
  | next (ts : TermState)
  | goexit
  | panicked (msg : String)
deriving DecidableEq, Repr

/-- Draft processNormalModePress: Ctrl-Q calls runtime.Goexit; hjkl move
with the draft bounds (0 and winSize-1, no gutter, no buffer). -/
def processNormalModePress (ts : TermState) (b : Nat) : Outcome :=
  if b = Zi.ctrlPress 113 then Outcome.goexit
  else if b = 105 then Outcome.next { ts with mode := EditorMode.insertMode }
  else if b = 104 then
    Outcome.next (if ts.cursorX > 0 then { ts with cursorX := ts.cursorX - 1 } else ts)
  else if b = 106 then
    Outcome.next (if ts.cursorY < (ts.winRow : Int) - 1 then { ts with cursorY := ts.cursorY + 1 } else ts)
  else if b = 107 then
    Outcome.next (if ts.cursorY > 0 then { ts with cursorY := ts.cursorY - 1 } else ts)
  else if b = 108 then
    Outcome.next (if ts.cursorX < (ts.winCol : Int) - 1 then { ts with cursorX := ts.cursorX + 1 } else ts)
  else Outcome.next ts

/-- Draft processInsertModePress: escape returns to normal mode. -/
def processInsertModePress (ts : TermState) (b : Nat) : Outcome :=
  if b = 27 then Outcome.next { ts with mode := EditorMode.normalMode } else Outcome.next ts

/-- Draft processVisualModePress: unconditionally panics. -/
def processVisualModePress (_ts : TermState) (_b : Nat) : Outcome :=
  Outcome.panicked "Visual mode is not implemented"

/-- Draft processCommandModePress: unconditionally panics. -/
def processCommandModePress (_ts : TermState) (_b : Nat) : Outcome :=
  Outcome.panicked "Command mode is not implemented"

/-- Draft processKeyPresses: dispatch one byte on the current mode. -/
def processKeyPresses (ts : TermState) (b : Nat) : Outcome :=
  match ts.mode with
  | EditorMode.normalMode => processNormalModePress ts b
  | EditorMode.insertMode => processInsertModePress ts b
  | EditorMode.visualMode => processVisualModePress ts b
  | EditorMode.commandMode => processCommandModePress ts b

end Draft

namespace Zi

/-- Cursor bounds maintained by hjkl movement: the horizontal clamp interval
[lineNumWidth+1, winCol] and the vertical clamp interval [0, bufferRowCount]. -/
def inBounds (ts : TermState) : Prop :=
  ts.lineNumWidth + 1 ≤ ts.cursorX ∧ ts.cursorX ≤ (ts.winCol : Int) ∧
  0 ≤ ts.cursorY ∧ ts.cursorY ≤ (ts.bufferRows.length : Int)

instance (ts : TermState) : Decidable (inBounds ts) := by
  unfold inBounds; infer_instance

theorem adjustScroll_cursorX (ts : TermState) : (adjustScroll ts).cursorX = ts.cursorX := by
  unfold adjustScroll; dsimp only; split_ifs <;> rfl

theorem adjustScroll_cursorY (ts : TermState) : (adjustScroll ts).cursorY = ts.cursorY := by
  unfold adjustScroll; dsimp only; split_ifs <;> rfl

theorem adjustScroll_welcomed (ts : TermState) : (adjustScroll ts).welcomed = ts.welcomed := by
  unfold adjustScroll; dsimp only; split_ifs <;> rfl

theorem adjustScroll_winRow (ts : TermState) : (adjustScroll ts).winRow = ts.winRow := by
  unfold adjustScroll; dsimp only; split_ifs <;> rfl

theorem adjustScroll_winCol (ts : TermState) : (adjustScroll ts).winCol = ts.winCol := by
  unfold adjustScroll; dsimp only; split_ifs <;> rfl

theorem adjustScroll_mode (ts : TermState) : (adjustScroll ts).mode = ts.mode := by
  unfold adjustScroll; dsimp only; split_ifs <;> rfl

theorem adjustScroll_bufferRows (ts : TermState) : (adjustScroll ts).bufferRows = ts.bufferRows := by
  unfold adjustScroll; dsimp only; split_ifs <;> rfl

theorem adjustScroll_openFilename (ts : TermState) :
    (adjustScroll ts).openFilename = ts.openFilename := by
  unfold adjustScroll; dsimp only; split_ifs <;> rfl

theorem adjustScroll_oldTermios (ts : TermState) :
    (adjustScroll ts).oldTermios = ts.oldTermios := by
  unfold adjustScroll; dsimp only; split_ifs <;> rfl

theorem adjustScroll_lineNumWidth (ts : TermState) :
    (adjustScroll ts).lineNumWidth = ts.lineNumWidth := by
  unfold adjustScroll; dsimp only; split_ifs <;> rfl

theorem adjustScroll_offset_le (ts : TermState) :
    (adjustScroll ts).rowOffset ≤ ts.cursorY ∧
    ts.cursorY ≤ (adjustScroll ts).rowOffset + (ts.winRow : Int) := by
  unfold adjustScroll; dsimp only; split_ifs <;> (try dsimp only at *) <;> constructor <;> omega

/-- Concrete witness state for C10: cursor far below the window. -/
def exC10 : TermState :=
  { oldTermios := 0, winRow := 2, winCol := 5, mode := editorMode.normalMode,
    welcomed := false, cursorX := 2, cursorY := 7, bufferRows := [],
    rowOffset := 1, lineNumWidth := 0, openFilename := "" }

/-- Claim C10: adjustScroll preserves non-negativity of the scroll offset: for
every state with rowOffset >= 0, cursorY >= 0 (and viewportRows >= 0, which
holds by type), after the call 0 <= rowOffset <= cursorY. -/
theorem C10_adjustScroll_nonneg (ts : TermState)
    (h1 : 0 ≤ ts.rowOffset) (h2 : 0 ≤ ts.cursorY) :
    0 ≤ (adjustScroll ts).rowOffset ∧ (adjustScroll ts).rowOffset ≤ ts.cursorY := by
  unfold adjustScroll; dsimp only; split_ifs <;> (try dsimp only at *) <;> constructor <;> omega

/-- Witness for C10 at a concrete state. -/
theorem C10_adjustScroll_nonneg_witness :
    0 ≤ (adjustScroll exC10).rowOffset ∧ (adjustScroll exC10).rowOffset ≤ exC10.cursorY :=
  C10_adjustScroll_nonneg exC10 (by decide) (by decide)

/-- Concrete state refuting claim C2: cursorY 1, rowOffset 0, one viewport
row; after adjustScroll the cursor sits at rowOffset + viewportRows, outside
the claimed window [rowOffset, rowOffset + viewportRows - 1]. -/
def exC2 : TermState :=
  { oldTermios := 0, winRow := 1, winCol := 5, mode := editorMode.normalMode,
    welcomed := false, cursorX := 2, cursorY := 1, bufferRows := ["a", "b"],
    rowOffset := 0, lineNumWidth := 1, openFilename := "" }

/-- Counterexample to claim C2: a state satisfying the claimed preconditions
(cursorY >= 0, rowOffset >= 0) for which the cursor row is not within
[rowOffset, rowOffset + viewportRows - 1] after adjustScroll. -/
theorem C2_counterexample :
    (0 ≤ exC2.cursorY ∧ 0 ≤ exC2.rowOffset) ∧
    ¬ ((adjustScroll exC2).rowOffset ≤ exC2.cursorY ∧
       exC2.cursorY ≤ (adjustScroll exC2).rowOffset + (exC2.winRow : Int) - 1) := by
  decide

/-- Claim C2, amended: for every state with cursorY >= 0 and rowOffset >= 0,
after adjustScroll the cursor row satisfies
rowOffset <= cursorY <= rowOffset + viewportRows (the code assigns
offset = cursorY - viewportRows without the +1 of the minimal-scroll formula,
so the cursor may rest one row past the claimed window). -/
theorem C2_adjustScroll_window (ts : TermState)
    (_h1 : 0 ≤ ts.cursorY) (_h2 : 0 ≤ ts.rowOffset) :
    (adjustScroll ts).rowOffset ≤ ts.cursorY ∧
    ts.cursorY ≤ (adjustScroll ts).rowOffset + (ts.winRow : Int) := by
  unfold adjustScroll; dsimp only; split_ifs <;> (try dsimp only at *) <;> constructor <;> omega

/-- Witness for the amended C2 at a concrete state. -/
theorem C2_adjustScroll_window_witness :
    (adjustScroll exC2).rowOffset ≤ exC2.cursorY ∧
    exC2.cursorY ≤ (adjustScroll exC2).rowOffset + (exC2.winRow : Int) :=
  C2_adjustScroll_window exC2 (by decide) (by decide)

/-- Claim C7: the byte reader never surfaces a read error or an empty result:
whenever some attempt in the stream succeeds, readKeyPress returns the first
successfully read byte (the first `some` of the attempt list). -/
theorem C7_readKeyPress_first_success (attempts : List (Option Nat))
    (h : ∃ a ∈ attempts, a.isSome) :
    readKeyPress attempts = attempts.findSome? id ∧ (readKeyPress attempts).isSome := by
  induction attempts with
  | nil => simp at h
  | cons a rest ih =>
    cases a with
    | some b => simp [readKeyPress, List.findSome?_cons]
    | none =>
      have h' : ∃ x ∈ rest, x.isSome := by
        rcases h with ⟨x, hx, hs⟩
        rcases List.mem_cons.mp hx with rfl | hx2
        · simp at hs
        · exact ⟨x, hx2, hs⟩
      simpa [readKeyPress, List.findSome?_cons] using ih h'

/-- Witness for C7: a stream with one failed attempt then byte 104. -/
theorem C7_readKeyPress_first_success_witness :
    readKeyPress [none, some 104] = [none, some 104].findSome? id ∧
    (readKeyPress [none, some 104]).isSome :=
  C7_readKeyPress_first_success [none, some 104] ⟨some 104, by decide, by decide⟩

end Zi

namespace Zi

/-- Concrete normal-mode state used as the C6 witness instance. -/
def exC6 : TermState := initialState 7 3 10

/-- Claim C6: in Normal mode the Ctrl-Q byte (17 = 0x11), and only that byte,
triggers session termination; on that path the two clear-screen chunks are
written and the writer flushed before the termios restore and the exit
signal, the restored snapshot is the stored pre-session one, and the exit
code is 0.  Dispatch in any non-Normal mode never produces an exit event. -/
theorem C6_ctrlQ_exit (ts : TermState) (h : ts.mode = editorMode.normalMode) :
    (∀ b : Nat, ((processKeyPresses ts b).2.any isExitEvent) = true ↔ b = 17) ∧
    (processKeyPresses ts 17).2 =
      [Event.write cpHomeChunk, Event.write eraseDisplayChunk, Event.flush,
       Event.restoreTermios ts.oldTermios, Event.exitCode 0] ∧
    (∀ (ts2 : TermState) (b : Nat), ts2.mode ≠ editorMode.normalMode →
      ((processKeyPresses ts2 b).2.any isExitEvent) = false) := by
  refine ⟨?_, ?_, ?_⟩
  · intro b
    unfold processKeyPresses
    rw [h]
    unfold processNormalModePress
    have hq : ctrlPress 113 = 17 := by decide
    rw [hq]
    split_ifs with h1 h2 h3 <;> simp_all [isExitEvent]
  · unfold processKeyPresses
    rw [h]
    unfold processNormalModePress
    have hq : ctrlPress 113 = 17 := by decide
    rw [hq]
    simp
  · intro ts2 b hm
    unfold processKeyPresses
    cases hmode : ts2.mode with
    | normalMode => exact absurd hmode hm
    | insertMode => unfold processInsertModePress; split_ifs <;> rfl
    | commandMode => unfold processCommandModePress; split_ifs <;> rfl

/-- Witness for C6 at a concrete normal-mode state. -/
theorem C6_ctrlQ_exit_witness :
    (∀ b : Nat, ((processKeyPresses exC6 b).2.any isExitEvent) = true ↔ b = 17) ∧
    (processKeyPresses exC6 17).2 =
      [Event.write cpHomeChunk, Event.write eraseDisplayChunk, Event.flush,
       Event.restoreTermios exC6.oldTermios, Event.exitCode 0] ∧
    (∀ (ts2 : TermState) (b : Nat), ts2.mode ≠ editorMode.normalMode →
      ((processKeyPresses ts2 b).2.any isExitEvent) = false) :=
  C6_ctrlQ_exit exC6 (by decide)

end Zi

namespace Zi

theorem moveCursor_fields (ts : TermState) (b : Nat) :
    (moveCursor ts b).lineNumWidth = ts.lineNumWidth ∧
    (moveCursor ts b).winCol = ts.winCol ∧
    (moveCursor ts b).bufferRows = ts.bufferRows ∧
    (moveCursor ts b).welcomed = ts.welcomed ∧
    (moveCursor ts b).winRow = ts.winRow ∧
    (moveCursor ts b).mode = ts.mode := by
  unfold moveCursor; split_ifs <;> simp

theorem moveCursor_inBounds (ts : TermState) (b : Nat) (h : inBounds ts) :
    inBounds (moveCursor ts b) := by
  unfold inBounds at h ⊢
  unfold moveCursor
  split_ifs <;> (try dsimp only at *) <;> omega

theorem processNormalModePress_hjkl (ts : TermState) (b : Nat)
    (hb : b = 104 ∨ b = 106 ∨ b = 107 ∨ b = 108) :
    processNormalModePress ts b = (moveCursor ts b, []) := by
  unfold processNormalModePress
  have h17 : b ≠ ctrlPress 113 := by rcases hb with rfl | rfl | rfl | rfl <;> decide
  have h105 : b ≠ 105 := by rcases hb with rfl | rfl | rfl | rfl <;> decide
  rw [if_neg h17, if_neg h105, if_pos hb]

/-- Concrete in-bounds state used as the C1 witness instance. -/
def exC1 : TermState :=
  { oldTermios := 0, winRow := 3, winCol := 5, mode := editorMode.normalMode,
    welcomed := false, cursorX := 2, cursorY := 0, bufferRows := ["a", "bb"],
    rowOffset := 0, lineNumWidth := 1, openFilename := "" }

/-- Claim C1: for every starting state within the clamp bounds and every
finite sequence of h/j/k/l bytes dispatched in Normal mode, the cursor stays
within bounds (cursorX in [lineNumWidth+1, winCol], cursorY in
[0, bufferRowCount]); and a press of h at cursorX = lineNumWidth+1 leaves
the state unchanged. -/
theorem C1_hjkl_inBounds (ts : TermState) (bs : List Nat)
    (hb : ∀ b ∈ bs, b = 104 ∨ b = 106 ∨ b = 107 ∨ b = 108)
    (hin : inBounds ts) :
    inBounds (bs.foldl (fun s b => (processNormalModePress s b).1) ts) ∧
    (ts.cursorX = ts.lineNumWidth + 1 → (processNormalModePress ts 104).1 = ts) := by
  constructor
  · induction bs generalizing ts with
    | nil => exact hin
    | cons b rest ih =>
      have hbb := hb b (List.mem_cons_self b rest)
      rw [List.foldl_cons]
      have hstep : (processNormalModePress ts b).1 = moveCursor ts b := by
        rw [processNormalModePress_hjkl ts b hbb]
      rw [hstep]
      exact ih (moveCursor ts b) (fun x hx => hb x (List.mem_cons_of_mem b hx))
        (moveCursor_inBounds ts b hin)
  · intro hx
    rw [processNormalModePress_hjkl ts 104 (Or.inl rfl)]
    unfold moveCursor
    have : ¬ ts.cursorX > ts.lineNumWidth + 1 := by omega
    simp [this]

/-- Witness for C1: a concrete in-bounds state and the byte sequence
l, j, h, k, h; the final clause is exercised at cursorX = lineNumWidth+1. -/
theorem C1_hjkl_inBounds_witness :
    inBounds ([108, 106, 104, 107, 104].foldl
      (fun s b => (processNormalModePress s b).1) exC1) ∧
    (exC1.cursorX = exC1.lineNumWidth + 1 → (processNormalModePress exC1 104).1 = exC1) :=
  C1_hjkl_inBounds exC1 [108, 106, 104, 107, 104] (by decide) (by decide)

end Zi

namespace Zi

/-- Concrete state refuting claim C8: two usable columns, normal mode, empty
filename; the status text "NORMAL -- " is ten characters and is not
truncated to the two-column width. -/
def exC8 : TermState :=
  { oldTermios := 0, winRow := 3, winCol := 2, mode := editorMode.normalMode,
    welcomed := false, cursorX := 2, cursorY := 0, bufferRows := [],
    rowOffset := 0, lineNumWidth := 0, openFilename := "" }

/-- Counterexample to claim C8: the visible status-bar text is not of length
exactly winCol (the Go width verb pads but never truncates). -/
theorem C8_counterexample :
    writeStatusBar exC8 = colorCode (statusColor exC8) ++ statusVisible exC8 ++ colorCode reset ∧
    (statusVisible exC8).length ≠ exC8.winCol := by
  exact ⟨rfl, by decide⟩

/-- Claim C8, amended: the status bar is one chunk consisting of the active
mode name ("NORMAL"/"INSERT", empty for command mode) and the open file
name joined by " -- ", left-justified and space-padded on the right to at
least the stored columns width (length max winCol len(msg)); an overlong
message is not truncated. -/
theorem C8_statusBar (ts : TermState) :
    writeStatusBar ts = colorCode (statusColor ts) ++ statusVisible ts ++ colorCode reset ∧
    (statusVisible ts).length = max ts.winCol (statusMsg ts).length ∧
    ∃ pad, statusVisible ts = statusMsg ts ++ pad ∧ ∀ c ∈ pad.data, c = ' ' := by
  refine ⟨rfl, ?_, ?_⟩
  · show (padRight ts.winCol (statusMsg ts)).length = _
    unfold padRight
    rw [String.length_append]
    have hrep : (String.mk (List.replicate (ts.winCol - (statusMsg ts).length) ' ')).length
        = ts.winCol - (statusMsg ts).length := by
      show (List.replicate (ts.winCol - (statusMsg ts).length) ' ').length = _
      exact List.length_replicate _ _
    rw [hrep]
    omega
  · exact ⟨String.mk (List.replicate (ts.winCol - (statusMsg ts).length) ' '), rfl,
      fun c hc => List.eq_of_mem_replicate hc⟩

end Zi

/-- Counterexample to claim C9: the canonical main.go mode enumeration has
exactly three inhabitants (Normal, Insert, Command) and not four; no Visual
mode exists in the canonical snapshot. -/
theorem C9_counterexample :
    Fintype.card Zi.editorMode = 3 ∧ Fintype.card Zi.editorMode ≠ 4 := by
  decide

/-- Claim C9, amended: only the earlier draft snapshot (unnamed/part_001)
has Visual as one of four modes, and there dispatching any byte in Visual
mode panics with "Visual mode is not implemented" (the
UnimplementedModeError of the spec); the canonical main.go snapshot has
exactly the three modes Normal, Insert, Command and no Visual dispatch. -/
theorem C9_visual_draft_only :
    Fintype.card Draft.EditorMode = 4 ∧ Fintype.card Zi.editorMode = 3 ∧
    (∀ (ts : Draft.TermState) (b : Nat),
      Draft.processKeyPresses { ts with mode := Draft.EditorMode.visualMode } b =
        Draft.Outcome.panicked "Visual mode is not implemented") := by
  refine ⟨by decide, by decide, ?_⟩
  intro ts b
  rfl

namespace Zi

theorem writeWelcomeMsg_state (ts : TermState) :
    (writeWelcomeMsg ts).1 = { ts with welcomed := true } := by
  unfold writeWelcomeMsg; dsimp only; split_ifs <;> rfl

theorem drawRowBody_state (ts : TermState) (i : Nat) :
    (drawRowBody ts i).1 = ts ∨ (drawRowBody ts i).1 = { ts with welcomed := true } := by
  unfold drawRowBody
  dsimp only
  split_ifs <;> first
    | (left; rfl)
    | (right; exact writeWelcomeMsg_state ts)

theorem drawRowsLoop_state (n : Nat) : ∀ (ts : TermState) (i : Nat),
    (drawRowsLoop ts i n).1 = ts ∨ (drawRowsLoop ts i n).1 = { ts with welcomed := true } := by
  induction n with
  | zero => intro ts i; left; rfl
  | succ n ih =>
    intro ts i
    unfold drawRowsLoop
    dsimp only
    rcases drawRowBody_state ts i with h | h <;> rw [h]
    · exact ih ts (i + 1)
    · rcases ih { ts with welcomed := true } (i + 1) with h2 | h2 <;> rw [h2] <;> right <;> rfl

theorem drawRowsLoop_cursorX (ts : TermState) (i n : Nat) :
    (drawRowsLoop ts i n).1.cursorX = ts.cursorX := by
  rcases drawRowsLoop_state n ts i with h | h <;> rw [h]

theorem drawRowsLoop_cursorY (ts : TermState) (i n : Nat) :
    (drawRowsLoop ts i n).1.cursorY = ts.cursorY := by
  rcases drawRowsLoop_state n ts i with h | h <;> rw [h]

theorem drawRowsLoop_rowOffset (ts : TermState) (i n : Nat) :
    (drawRowsLoop ts i n).1.rowOffset = ts.rowOffset := by
  rcases drawRowsLoop_state n ts i with h | h <;> rw [h]

theorem drawRowsLoop_winRow (ts : TermState) (i n : Nat) :
    (drawRowsLoop ts i n).1.winRow = ts.winRow := by
  rcases drawRowsLoop_state n ts i with h | h <;> rw [h]

theorem drawRowsLoop_winCol (ts : TermState) (i n : Nat) :
    (drawRowsLoop ts i n).1.winCol = ts.winCol := by
  rcases drawRowsLoop_state n ts i with h | h <;> rw [h]

theorem drawRowsLoop_mode (ts : TermState) (i n : Nat) :
    (drawRowsLoop ts i n).1.mode = ts.mode := by
  rcases drawRowsLoop_state n ts i with h | h <;> rw [h]

theorem drawRowsLoop_bufferRows (ts : TermState) (i n : Nat) :
    (drawRowsLoop ts i n).1.bufferRows = ts.bufferRows := by
  rcases drawRowsLoop_state n ts i with h | h <;> rw [h]

theorem drawRowsLoop_openFilename (ts : TermState) (i n : Nat) :
    (drawRowsLoop ts i n).1.openFilename = ts.openFilename := by
  rcases drawRowsLoop_state n ts i with h | h <;> rw [h]

theorem drawRowsLoop_oldTermios (ts : TermState) (i n : Nat) :
    (drawRowsLoop ts i n).1.oldTermios = ts.oldTermios := by
  rcases drawRowsLoop_state n ts i with h | h <;> rw [h]

theorem drawRowsLoop_lineNumWidth (ts : TermState) (i n : Nat) :
    (drawRowsLoop ts i n).1.lineNumWidth = ts.lineNumWidth := by
  rcases drawRowsLoop_state n ts i with h | h <;> rw [h]

end Zi

namespace Zi

theorem drawRows_cursorX (ts : TermState) : (drawRows ts).1.cursorX = ts.cursorX := by
  unfold drawRows; dsimp only; rw [drawRowsLoop_cursorX]

theorem drawRows_cursorY (ts : TermState) : (drawRows ts).1.cursorY = ts.cursorY := by
  unfold drawRows; dsimp only; rw [drawRowsLoop_cursorY]

theorem drawRows_rowOffset (ts : TermState) : (drawRows ts).1.rowOffset = ts.rowOffset := by
  unfold drawRows; dsimp only; rw [drawRowsLoop_rowOffset]

theorem drawRows_mode (ts : TermState) : (drawRows ts).1.mode = ts.mode := by
  unfold drawRows; dsimp only; rw [drawRowsLoop_mode]

theorem drawRows_bufferRows (ts : TermState) : (drawRows ts).1.bufferRows = ts.bufferRows := by
  unfold drawRows; dsimp only; rw [drawRowsLoop_bufferRows]

theorem drawRows_winRow (ts : TermState) : (drawRows ts).1.winRow = ts.winRow := by
  unfold drawRows; dsimp only; rw [drawRowsLoop_winRow]

theorem drawRows_winCol (ts : TermState) : (drawRows ts).1.winCol = ts.winCol := by
  unfold drawRows; dsimp only; rw [drawRowsLoop_winCol]

theorem drawRows_openFilename (ts : TermState) :
    (drawRows ts).1.openFilename = ts.openFilename := by
  unfold drawRows; dsimp only; rw [drawRowsLoop_openFilename]

theorem drawRows_oldTermios (ts : TermState) :
    (drawRows ts).1.oldTermios = ts.oldTermios := by
  unfold drawRows; dsimp only; rw [drawRowsLoop_oldTermios]

theorem refreshScreen_chunks_shape (ts : TermState) :
    (refreshScreen ts).2.1 =
      [hideCursorChunk] ++ (drawRows (adjustScroll ts)).2.1 ++
      [cursorPosChunk
        (if (drawRows (adjustScroll ts)).1.cursorY < 2 then
          (drawRows (adjustScroll ts)).1.cursorY - (drawRows (adjustScroll ts)).1.rowOffset + 1
        else (drawRows (adjustScroll ts)).1.cursorY - (drawRows (adjustScroll ts)).1.rowOffset)
        ((drawRows (adjustScroll ts)).1.cursorX + 1), showCursorChunk] := by
  unfold refreshScreen
  dsimp only

theorem penultimate_of_shape (A : List String) (h c s : String) :
    (([h] ++ A ++ [c, s]).reverse.drop 1).head? = some c := by
  simp

/-- Claim C3, amended: the final cursor-placement escape of every frame
addresses column cursorX+1 but row cursorY - rowOffset (not +1), with the
bias of +1 applied when the absolute cursor row cursorY is 0 or 1 (cursorY
< 2), not when the on-screen row is 0 or 1; rowOffset is the post-recompute
offset. -/
theorem C3_cursor_escape (ts : TermState) :
    frameCursorChunk ts = some (cursorPosChunk (frameCursorRow ts) (ts.cursorX + 1)) := by
  unfold frameCursorChunk
  rw [refreshScreen_chunks_shape]
  rw [penultimate_of_shape]
  rw [drawRows_cursorY, drawRows_cursorX, drawRows_rowOffset,
    adjustScroll_cursorY, adjustScroll_cursorX]
  unfold frameCursorRow
  dsimp only
  rw [adjustScroll_cursorY]

end Zi

namespace Zi

/-- Concrete state refuting claim C3: cursorY 2, rowOffset 0 after the
recompute; the frame emits row 2 while the claimed formula gives row 3. -/
def exC3 : TermState :=
  { oldTermios := 0, winRow := 3, winCol := 5, mode := editorMode.normalMode,
    welcomed := true, cursorX := 2, cursorY := 2, bufferRows := [],
    rowOffset := 0, lineNumWidth := 0, openFilename := "" }

/-- Counterexample to claim C3: at exC3 the frame's cursor escape is ESC[2;3H
(row cursorY - rowOffset = 2), not the claimed ESC[3;3H
(row cursorY - rowOffset + 1 = 3). -/
theorem C3_counterexample :
    frameCursorChunk exC3 ≠ some (cursorPosChunk (claimedCursorRowC3 exC3) (exC3.cursorX + 1)) ∧
    frameCursorChunk exC3 = some (cursorPosChunk 2 3) ∧
    claimedCursorRowC3 exC3 = 3 := by
  decide

end Zi

namespace Zi

theorem drawRowBody_banner (ts : TermState) (i : Nat) :
    ((drawRowBody ts i).1 = ts ∧ (drawRowBody ts i).2.2 = []) ∨
    ((drawRowBody ts i).1 = { ts with welcomed := true } ∧ (drawRowBody ts i).2.2 = [i] ∧
      ts.welcomed = false ∧ i = ts.winRow / 3) := by
  unfold drawRowBody
  dsimp only
  split_ifs with h1 h2 h3
  · right
    exact ⟨writeWelcomeMsg_state ts, rfl, by simpa using h2.1, h2.2⟩
  · left; exact ⟨rfl, rfl⟩
  · left; exact ⟨rfl, rfl⟩
  · left; exact ⟨rfl, rfl⟩

theorem drawRowsLoop_banner (n : Nat) : ∀ (ts : TermState) (i : Nat),
    ((drawRowsLoop ts i n).2.2.length ≤ 1) ∧
    (ts.welcomed = true → (drawRowsLoop ts i n).2.2 = []) ∧
    (∀ p ∈ (drawRowsLoop ts i n).2.2, p = ts.winRow / 3) ∧
    ((drawRowsLoop ts i n).2.2 = [] → (drawRowsLoop ts i n).1 = ts) ∧
    ((drawRowsLoop ts i n).2.2 ≠ [] → (drawRowsLoop ts i n).1.welcomed = true) := by
  induction n with
  | zero =>
    intro ts i
    exact ⟨by simp [drawRowsLoop], fun _ => rfl, by simp [drawRowsLoop],
      fun _ => rfl, fun h => absurd rfl h⟩
  | succ n ih =>
    intro ts i
    unfold drawRowsLoop
    dsimp only
    rcases drawRowBody_banner ts i with ⟨hs, hbn⟩ | ⟨hs, hbn, hw, hi⟩ <;> rw [hs, hbn]
    · rcases ih ts (i + 1) with ⟨l1, l2, l3, l4, l5⟩
      exact ⟨by simpa using l1, fun hw => by simpa using l2 hw, by simpa using l3,
        fun h => l4 (by simpa using h), fun h => l5 (by simpa using h)⟩
    · rcases ih { ts with welcomed := true } (i + 1) with ⟨l1, l2, l3, l4, l5⟩
      have hrest : (drawRowsLoop { ts with welcomed := true } (i + 1) n).2.2 = [] := l2 rfl
      have hstate : (drawRowsLoop { ts with welcomed := true } (i + 1) n).1
          = { ts with welcomed := true } := l4 hrest
      rw [hrest, hstate]
      refine ⟨by simp, ?_, ?_, ?_, fun _ => rfl⟩
      · intro hwt; rw [hwt] at hw; exact absurd hw (by simp)
      · intro p hp
        simp only [List.append_nil, List.mem_singleton] at hp
        rw [hp]; exact hi
      · intro h; simp at h

end Zi

namespace Zi

theorem refreshScreen_unfold (ts : TermState) :
    refreshScreen ts =
      ((drawRows (adjustScroll ts)).1,
       [hideCursorChunk] ++ (drawRows (adjustScroll ts)).2.1 ++
       [cursorPosChunk
         (if (drawRows (adjustScroll ts)).1.cursorY < 2 then
           (drawRows (adjustScroll ts)).1.cursorY - (drawRows (adjustScroll ts)).1.rowOffset + 1
         else (drawRows (adjustScroll ts)).1.cursorY - (drawRows (adjustScroll ts)).1.rowOffset)
         ((drawRows (adjustScroll ts)).1.cursorX + 1), showCursorChunk],
       (drawRows (adjustScroll ts)).2.2) := by
  unfold refreshScreen
  dsimp only

theorem drawRows_unfold (ts : TermState) :
    drawRows ts =
      ((drawRowsLoop { ts with lineNumWidth := ((toString ts.bufferRows.length).length : Int) }
          0 ts.winRow).1,
       clearScreenChunks ++
         (drawRowsLoop { ts with lineNumWidth := ((toString ts.bufferRows.length).length : Int) }
           0 ts.winRow).2.1 ++
         [writeStatusBar
           (drawRowsLoop { ts with lineNumWidth := ((toString ts.bufferRows.length).length : Int) }
             0 ts.winRow).1],
       (drawRowsLoop { ts with lineNumWidth := ((toString ts.bufferRows.length).length : Int) }
         0 ts.winRow).2.2) := by
  unfold drawRows
  dsimp only

theorem refreshScreen_winRow (ts : TermState) : (refreshScreen ts).1.winRow = ts.winRow := by
  rw [refreshScreen_unfold]
  dsimp only
  rw [drawRows_winRow, adjustScroll_winRow]

theorem refreshScreen_welcomed_of_no_banner (ts : TermState)
    (h : (refreshScreen ts).2.2 = []) : (refreshScreen ts).1.welcomed = ts.welcomed := by
  rw [refreshScreen_unfold] at h ⊢
  dsimp only at h ⊢
  rw [drawRows_unfold] at h ⊢
  dsimp only at h ⊢
  rcases drawRowsLoop_banner ((adjustScroll ts).winRow)
    { adjustScroll ts with
        lineNumWidth := ((toString (adjustScroll ts).bufferRows.length).length : Int) } 0
    with ⟨_, _, _, l4, _⟩
  rw [l4 h]
  dsimp only
  exact adjustScroll_welcomed ts

theorem refreshScreen_banner (ts : TermState) :
    ((refreshScreen ts).2.2.length ≤ 1) ∧
    (ts.welcomed = true → (refreshScreen ts).2.2 = []) ∧
    (∀ p ∈ (refreshScreen ts).2.2, p = ts.winRow / 3) ∧
    ((refreshScreen ts).2.2 ≠ [] → (refreshScreen ts).1.welcomed = true) := by
  rw [refreshScreen_unfold, drawRows_unfold]
  dsimp only
  rcases drawRowsLoop_banner ((adjustScroll ts).winRow)
    { adjustScroll ts with
        lineNumWidth := ((toString (adjustScroll ts).bufferRows.length).length : Int) } 0
    with ⟨l1, l2, l3, l4, l5⟩
  refine ⟨l1, ?_, ?_, l5⟩
  · intro hw
    exact l2 (by dsimp only; rw [adjustScroll_welcomed]; exact hw)
  · intro p hp
    have := l3 p hp
    dsimp only at this
    rw [adjustScroll_winRow] at this
    exact this

end Zi

namespace Zi

theorem processKeyPresses_welcomed_winRow (ts : TermState) (b : Nat) :
    (processKeyPresses ts b).1.welcomed = ts.welcomed ∧
    (processKeyPresses ts b).1.winRow = ts.winRow := by
  unfold processKeyPresses
  cases hm : ts.mode with
  | normalMode =>
    unfold processNormalModePress
    split_ifs with h1 h2 h3
    · exact ⟨rfl, rfl⟩
    · exact ⟨rfl, rfl⟩
    · have hmv := moveCursor_fields ts b
      exact ⟨hmv.2.2.2.1, hmv.2.2.2.2.1⟩
    · exact ⟨rfl, rfl⟩
  | insertMode =>
    unfold processInsertModePress
    split_ifs <;> exact ⟨rfl, rfl⟩
  | commandMode =>
    unfold processCommandModePress
    split_ifs <;> exact ⟨rfl, rfl⟩

theorem runSession_banner (bs : List Nat) : ∀ ts : TermState,
    ((runSession ts bs).2.length ≤ 1) ∧
    (ts.welcomed = true → (runSession ts bs).2 = []) ∧
    (∀ p ∈ (runSession ts bs).2, p = ts.winRow / 3) := by
  induction bs with
  | nil =>
    intro ts
    exact ⟨by simp [runSession], fun _ => rfl, by simp [runSession]⟩
  | cons b rest ih =>
    intro ts
    unfold runSession sessionStep
    dsimp only
    rcases refreshScreen_banner ts with ⟨r1, r2, r3, r4⟩
    rcases processKeyPresses_welcomed_winRow (refreshScreen ts).1 b with ⟨d1, d2⟩
    split_ifs with hexit
    · exact ⟨r1, r2, r3⟩
    · rcases ih (processKeyPresses (refreshScreen ts).1 b).1 with ⟨i1, i2, i3⟩
      by_cases hfb : (refreshScreen ts).2.2 = []
      · rw [hfb]
        have hkeep : (refreshScreen ts).1.welcomed = ts.welcomed :=
          refreshScreen_welcomed_of_no_banner ts hfb
        refine ⟨by simpa using i1, ?_, ?_⟩
        · intro hw
          have : (processKeyPresses (refreshScreen ts).1 b).1.welcomed = true := by
            rw [d1, hkeep]; exact hw
          simpa using i2 this
        · intro p hp
          simp only [List.nil_append] at hp
          have := i3 p hp
          rw [d2, refreshScreen_winRow] at this
          exact this
      · have hwd : (processKeyPresses (refreshScreen ts).1 b).1.welcomed = true := by
          rw [d1]; exact r4 hfb
        have hrest : (runSession (processKeyPresses (refreshScreen ts).1 b).1 rest).2 = [] :=
          i2 hwd
        rw [hrest]
        refine ⟨by simpa using r1, ?_, ?_⟩
        · intro hw
          rw [r2 hw]
          simp
        · intro p hp
          simp only [List.append_nil] at hp
          exact r3 p hp

end Zi

namespace Zi

/-- Claim C5: across every session started through main
(initial state, then openEditor, then a run of render/dispatch iterations),
the welcome banner is drawn at most once, only on the screen line with index
viewportRows/3, and never in a session where a file was opened at startup
(two or more command line arguments and a successful open). -/
theorem C5_banner_once (oldT wr wc : Nat) (args : List String)
    (contents : String → Option (List String)) (bs : List Nat) (ts0 : TermState)
    (hopen : openEditor args contents (initialState oldT wr wc) = some ts0) :
    (runSession ts0 bs).2.length ≤ 1 ∧
    (∀ p ∈ (runSession ts0 bs).2, p = wr / 3) ∧
    (2 ≤ args.length → (runSession ts0 bs).2 = []) := by
  unfold openEditor at hopen
  split_ifs at hopen with hlen
  · have hts : ts0 = initialState oldT wr wc := by
      injection hopen with h
      exact h.symm
    subst hts
    rcases runSession_banner bs (initialState oldT wr wc) with ⟨s1, _, s3⟩
    exact ⟨s1, s3, fun h2 => absurd h2 (by omega)⟩
  · dsimp only at hopen
    cases hc : contents (args.getD 1 "") with
    | none => rw [hc] at hopen; exact absurd hopen (by simp)
    | some lines =>
      rw [hc] at hopen
      have hts : ts0 = { initialState oldT wr wc with
          openFilename := args.getD 1 "", bufferRows := lines, welcomed := true,
          lineNumWidth := ((toString lines.length).length : Int),
          cursorX := ((toString lines.length).length : Int) + 1 } := by
        injection hopen with h
        exact h.symm
      rcases runSession_banner bs ts0 with ⟨s1, s2, s3⟩
      have hwel : ts0.welcomed = true := by rw [hts]
      have hempty : (runSession ts0 bs).2 = [] := s2 hwel
      rw [hempty]
      exact ⟨by simp, by simp, fun _ => rfl⟩

/-- Witness for C5: a no-file session over one keypress. -/
theorem C5_banner_once_witness :
    (runSession (initialState 0 1 5) [107]).2.length ≤ 1 ∧
    (∀ p ∈ (runSession (initialState 0 1 5) [107]).2, p = 1 / 3) ∧
    (2 ≤ ([] : List String).length → (runSession (initialState 0 1 5) [107]).2 = []) :=
  C5_banner_once 0 1 5 [] (fun _ => none) [107] (initialState 0 1 5) rfl

end Zi

namespace Zi

theorem set_welcomed_self (ts : TermState) (h : ts.welcomed = true) :
    { ts with welcomed := true } = ts := by
  cases ts
  dsimp only at h
  rw [← h]

theorem adjustScroll_idem (ts : TermState) :
    adjustScroll (adjustScroll ts) = adjustScroll ts := by
  cases ts
  unfold adjustScroll
  dsimp only
  split_ifs <;> (try dsimp only at *) <;>
    first
      | rfl
      | (simp only [TermState.mk.injEq, and_true, true_and]; omega)
      | omega

theorem adjustScroll_set_lineNumWidth (ts : TermState) (d : Int) :
    adjustScroll { ts with lineNumWidth := d } = { adjustScroll ts with lineNumWidth := d } := by
  cases ts
  unfold adjustScroll
  dsimp only
  split_ifs <;> rfl

theorem refreshScreen_stable (ts : TermState)
    (h : (refreshScreen ts).1.welcomed = ts.welcomed) :
    refreshScreen (refreshScreen ts).1 = refreshScreen ts := by
  have hbuf := adjustScroll_bufferRows ts
  have hstA : (refreshScreen ts).1
      = (drawRowsLoop { adjustScroll ts with
          lineNumWidth := ((toString ts.bufferRows.length).length : Int) } 0
          (adjustScroll ts).winRow).1 := by
    rw [refreshScreen_unfold]
    dsimp only
    rw [drawRows_unfold]
    dsimp only
    rw [hbuf]
  have hts1 : (refreshScreen ts).1
      = { adjustScroll ts with
          lineNumWidth := ((toString ts.bufferRows.length).length : Int) } := by
    rcases drawRowsLoop_state ((adjustScroll ts).winRow)
        { adjustScroll ts with
          lineNumWidth := ((toString ts.bufferRows.length).length : Int) } 0
      with hcase | hcase
    · rw [hstA, hcase]
    · rw [hstA, hcase]
      have hw : ts.welcomed = true := by
        rw [← h, hstA, hcase]
      apply set_welcomed_self
      dsimp only
      rw [adjustScroll_welcomed]
      exact hw
  rw [hts1]
  have hadj : adjustScroll { adjustScroll ts with
        lineNumWidth := ((toString ts.bufferRows.length).length : Int) }
      = { adjustScroll ts with
          lineNumWidth := ((toString ts.bufferRows.length).length : Int) } := by
    rw [adjustScroll_set_lineNumWidth, adjustScroll_idem]
  have hdr : drawRows { adjustScroll ts with
        lineNumWidth := ((toString ts.bufferRows.length).length : Int) }
      = drawRows (adjustScroll ts) := by
    rw [drawRows_unfold { adjustScroll ts with
          lineNumWidth := ((toString ts.bufferRows.length).length : Int) },
        drawRows_unfold (adjustScroll ts)]
  rw [refreshScreen_unfold ts,
      refreshScreen_unfold { adjustScroll ts with
        lineNumWidth := ((toString ts.bufferRows.length).length : Int) },
      hadj, hdr]

end Zi

namespace Zi

theorem data_append_str (s t : String) : (s ++ t).data = s.data ++ t.data :=
  String.data_append s t

theorem getLast?_data_append (s t : String) :
    (s ++ t).data.getLast? = t.data.getLast?.or s.data.getLast? := by
  rw [data_append_str, List.getLast?_append]

theorem head?_data_append (s t : String) :
    (s ++ t).data.head? = s.data.head?.or t.data.head? := by
  rw [data_append_str]
  cases hs : s.data <;> simp

theorem colorCode_getLast? (c : Nat) : (colorCode c).data.getLast? = some 'm' := by
  unfold colorCode
  rw [getLast?_data_append]
  rfl

theorem notCp_of_getLast? (s : String) (c : Char) (h : s.data.getLast? = some c)
    (hc : c ≠ 'H') : isCursorPosEscape s = false := by
  unfold isCursorPosEscape
  rw [h]
  simp [hc]

theorem notCp_of_head? (s : String) (h : ∀ c, s.data.head? = some c → c ≠ escapeChar) :
    isCursorPosEscape s = false := by
  unfold isCursorPosEscape
  cases hh : s.data.head? with
  | none => simp
  | some c =>
    have := h c hh
    simp [this]

theorem notCp_statusBar (ts : TermState) : isCursorPosEscape (writeStatusBar ts) = false := by
  apply notCp_of_getLast? _ 'm' _ (by decide)
  unfold writeStatusBar
  rw [getLast?_data_append, colorCode_getLast?]
  rfl

theorem notCp_lineNumChunk (w : Nat) (n : Int) :
    isCursorPosEscape (lineNumChunk w n) = false := by
  apply notCp_of_getLast? _ ' ' _ (by decide)
  unfold lineNumChunk
  rw [getLast?_data_append]
  rfl

theorem padLeft_head? (w : Nat) (s : String) :
    (padLeft w s).data.head? = some ' ' ∨ (padLeft w s).data.head? = s.data.head? := by
  unfold padLeft
  rw [data_append_str]
  cases hk : w - s.length with
  | zero => right; rfl
  | succ k => left; rfl

theorem notCp_welcome (ts : TermState) :
    isCursorPosEscape (writeWelcomeMsg ts).2 = false := by
  have hz : ∀ w k, (padLeft w (strTake welcomeMsg (k + 1))).data.head? ≠ some escapeChar := by
    intro w k
    rcases padLeft_head? w (strTake welcomeMsg (k + 1)) with hh | hh <;> rw [hh]
    · decide
    · show ((welcomeMsg.data.take (k + 1)).head? ≠ _)
      have hwz : welcomeMsg.data = 'z' :: "i -- version 0.0.1".data := rfl
      rw [hwz, List.take_succ_cons, List.head?_cons]
      decide
  have hm : ∀ w, (padLeft w welcomeMsg).data.head? ≠ some escapeChar := by
    intro w
    rcases padLeft_head? w welcomeMsg with hh | hh <;> rw [hh] <;> decide
  unfold writeWelcomeMsg
  dsimp only
  split_ifs with h1
  · apply notCp_of_head?
    intro c hc hce
    subst hce
    exact hz _ ts.winCol (by rw [← hc])
  · apply notCp_of_head?
    intro c hc hce
    subst hce
    exact hm _ (by rw [← hc])

theorem notCp_strTake (row : String) (k : Nat) (h : escapeChar ∉ row.data) :
    isCursorPosEscape (strTake row k) = false := by
  apply notCp_of_head?
  intro c hc hce
  subst hce
  have hc2 : (row.data.take k).head? = some escapeChar := hc
  have hmem : escapeChar ∈ row.data.take k := by
    apply List.mem_of_mem_head?
    rw [hc2]
    rfl
  exact h (List.mem_of_mem_take hmem)

theorem cp_cursorPosChunk (y x : Int) : isCursorPosEscape (cursorPosChunk y x) = true := by
  unfold isCursorPosEscape
  have hdata : (cursorPosChunk y x).data
      = escapeChar :: escapeSeqBegin :: (((toString y).data ++ [';'] ++ (toString x).data)
        ++ ['H']) := by
    unfold cursorPosChunk
    simp only [data_append_str]
    rfl
  rw [hdata]
  have hlast : (escapeChar :: escapeSeqBegin :: (((toString y).data ++ [';']
      ++ (toString x).data) ++ ['H'])).getLast? = some 'H' := by
    show ((escapeChar :: escapeSeqBegin :: ((toString y).data ++ [';'] ++ (toString x).data))
      ++ ['H']).getLast? = some 'H'
    rw [List.getLast?_append]
    rfl
  rw [hlast]
  have hsemi : (escapeChar :: escapeSeqBegin :: (((toString y).data ++ [';']
      ++ (toString x).data) ++ ['H'])).contains ';' = true := by
    apply List.elem_eq_true_of_mem
    simp
  rw [hsemi]
  simp

end Zi

namespace Zi

theorem notCp_tilde : isCursorPosEscape "~" = false := by decide

theorem notCp_crlf : isCursorPosEscape "\r\n" = false := by decide

theorem notCp_hide : isCursorPosEscape hideCursorChunk = false := by decide

theorem notCp_show : isCursorPosEscape showCursorChunk = false := by decide

theorem notCp_cpHome : isCursorPosEscape cpHomeChunk = false := by decide

theorem notCp_erase : isCursorPosEscape eraseDisplayChunk = false := by decide

theorem drawRowBody_chunks_noCp (ts : TermState) (i : Nat)
    (hrows : ∀ r ∈ ts.bufferRows, escapeChar ∉ r.data) :
    (drawRowBody ts i).2.1.countP isCursorPosEscape = 0 := by
  have hget : escapeChar ∉ ((ts.bufferRows[(ts.rowOffset + (i : Int)).toNat]?).getD "").data := by
    cases hg : ts.bufferRows[(ts.rowOffset + (i : Int)).toNat]? with
    | none => decide
    | some r => exact hrows r (List.getElem?_mem hg)
  have hst : ∀ k, isCursorPosEscape
      (strTake ((ts.bufferRows[(ts.rowOffset + (i : Int)).toNat]?).getD "") k) = false :=
    fun k => notCp_strTake _ k hget
  unfold drawRowBody
  dsimp only
  split_ifs with h1 h2 h3 <;>
    simp [List.countP_cons, notCp_tilde, notCp_crlf, notCp_welcome, notCp_lineNumChunk, hst]

theorem drawRowsLoop_chunks_noCp (n : Nat) : ∀ (ts : TermState) (i : Nat),
    (∀ r ∈ ts.bufferRows, escapeChar ∉ r.data) →
    (drawRowsLoop ts i n).2.1.countP isCursorPosEscape = 0 := by
  induction n with
  | zero => intro ts i _; rfl
  | succ n ih =>
    intro ts i hrows
    unfold drawRowsLoop
    dsimp only
    rw [List.countP_append]
    rw [drawRowBody_chunks_noCp ts i hrows]
    rcases drawRowBody_state ts i with hs | hs <;> rw [hs]
    · rw [ih ts (i + 1) hrows]
    · rw [ih { ts with welcomed := true } (i + 1) (by dsimp only; exact hrows)]

theorem refreshScreen_countP (ts : TermState)
    (hrows : ∀ r ∈ ts.bufferRows, escapeChar ∉ r.data) :
    (refreshScreen ts).2.1.countP isCursorPosEscape = 1 := by
  rw [refreshScreen_unfold, drawRows_unfold]
  dsimp only
  have hrows2 : ∀ r ∈ ({ adjustScroll ts with
      lineNumWidth := ((toString (adjustScroll ts).bufferRows.length).length : Int)
      } : TermState).bufferRows, escapeChar ∉ r.data := by
    dsimp only
    rw [adjustScroll_bufferRows]
    exact hrows
  simp only [List.countP_append, List.countP_cons, List.countP_nil]
  rw [drawRowsLoop_chunks_noCp _ _ _ hrows2]
  simp [clearScreenChunks, List.countP_cons, notCp_hide, notCp_show, notCp_cpHome,
    notCp_erase, notCp_statusBar, cp_cursorPosChunk]

end Zi

namespace Zi

theorem refreshScreen_cursorX (ts : TermState) : (refreshScreen ts).1.cursorX = ts.cursorX := by
  rw [refreshScreen_unfold]
  dsimp only
  rw [drawRows_cursorX, adjustScroll_cursorX]

theorem refreshScreen_cursorY (ts : TermState) : (refreshScreen ts).1.cursorY = ts.cursorY := by
  rw [refreshScreen_unfold]
  dsimp only
  rw [drawRows_cursorY, adjustScroll_cursorY]

theorem refreshScreen_mode (ts : TermState) : (refreshScreen ts).1.mode = ts.mode := by
  rw [refreshScreen_unfold]
  dsimp only
  rw [drawRows_mode, adjustScroll_mode]

theorem refreshScreen_bufferRows (ts : TermState) :
    (refreshScreen ts).1.bufferRows = ts.bufferRows := by
  rw [refreshScreen_unfold]
  dsimp only
  rw [drawRows_bufferRows, adjustScroll_bufferRows]

theorem refreshScreen_openFilename (ts : TermState) :
    (refreshScreen ts).1.openFilename = ts.openFilename := by
  rw [refreshScreen_unfold]
  dsimp only
  rw [drawRows_openFilename, adjustScroll_openFilename]

theorem refreshScreen_winCol (ts : TermState) : (refreshScreen ts).1.winCol = ts.winCol := by
  rw [refreshScreen_unfold]
  dsimp only
  rw [drawRows_winCol, adjustScroll_winCol]

theorem refreshScreen_oldTermios (ts : TermState) :
    (refreshScreen ts).1.oldTermios = ts.oldTermios := by
  rw [refreshScreen_unfold]
  dsimp only
  rw [drawRows_oldTermios, adjustScroll_oldTermios]

/-- Concrete state refuting claim C4: one viewport row, empty buffer, banner
not yet shown.  The first frame draws the banner and mutates the state; the
second frame omits the banner, so the two byte sequences differ. -/
def exC4 : TermState :=
  { oldTermios := 0, winRow := 1, winCol := 5, mode := editorMode.normalMode,
    welcomed := false, cursorX := 2, cursorY := 0, bufferRows := [],
    rowOffset := 0, lineNumWidth := 0, openFilename := "" }

/-- Counterexample to claim C4: rendering is not pure (it mutates the Editor
State), and rendering twice with no intervening dispatch is not
byte-identical when the first frame draws the welcome banner. -/
theorem C4_counterexample :
    (refreshScreen exC4).1 ≠ exC4 ∧
    frameBytes (refreshScreen exC4).1 ≠ frameBytes exC4 := by
  decide

/-- Concrete already-welcomed state used as the C4 witness instance. -/
def exC4w : TermState := { exC4 with welcomed := true }

/-- Claim C4, amended: rendering is deterministic in the Editor State (which
carries the window geometry) but mutates it: only rowOffset, lineNumWidth
and the welcomed flag can change.  When the frame leaves the welcomed flag
unchanged (no banner drawn), re-rendering the resulting state with no
intervening dispatch is byte-identical; and for buffers whose rows contain
no escape character, the cursor-position escape chunk occurs exactly once
per frame. -/
theorem C4_render_properties (ts : TermState)
    (hrows : ∀ r ∈ ts.bufferRows, escapeChar ∉ r.data) :
    ((refreshScreen ts).1.cursorX = ts.cursorX ∧
     (refreshScreen ts).1.cursorY = ts.cursorY ∧
     (refreshScreen ts).1.mode = ts.mode ∧
     (refreshScreen ts).1.bufferRows = ts.bufferRows ∧
     (refreshScreen ts).1.openFilename = ts.openFilename ∧
     (refreshScreen ts).1.winRow = ts.winRow ∧
     (refreshScreen ts).1.winCol = ts.winCol ∧
     (refreshScreen ts).1.oldTermios = ts.oldTermios) ∧
    ((refreshScreen ts).1.welcomed = ts.welcomed →
      frameBytes (refreshScreen ts).1 = frameBytes ts) ∧
    (refreshScreen ts).2.1.countP isCursorPosEscape = 1 := by
  refine ⟨⟨refreshScreen_cursorX ts, refreshScreen_cursorY ts, refreshScreen_mode ts,
    refreshScreen_bufferRows ts, refreshScreen_openFilename ts, refreshScreen_winRow ts,
    refreshScreen_winCol ts, refreshScreen_oldTermios ts⟩, ?_, refreshScreen_countP ts hrows⟩
  intro h
  unfold frameBytes
  rw [refreshScreen_stable ts h]

/-- Witness for the amended C4 at a concrete already-welcomed state. -/
theorem C4_render_properties_witness :
    ((refreshScreen exC4w).1.cursorX = exC4w.cursorX ∧
     (refreshScreen exC4w).1.cursorY = exC4w.cursorY ∧
     (refreshScreen exC4w).1.mode = exC4w.mode ∧
     (refreshScreen exC4w).1.bufferRows = exC4w.bufferRows ∧
     (refreshScreen exC4w).1.openFilename = exC4w.openFilename ∧
     (refreshScreen exC4w).1.winRow = exC4w.winRow ∧
     (refreshScreen exC4w).1.winCol = exC4w.winCol ∧
     (refreshScreen exC4w).1.oldTermios = exC4w.oldTermios) ∧
    ((refreshScreen exC4w).1.welcomed = exC4w.welcomed →
      frameBytes (refreshScreen exC4w).1 = frameBytes exC4w) ∧
    (refreshScreen exC4w).2.1.countP isCursorPosEscape = 1 :=
  C4_render_properties exC4w (by decide)

end Zi
